import Mathlib

/-!
Verification of the generation-orchestration core of the PixFrog AI tools
website (src/services/geminiService.ts, src/services/memoryService.ts,
src/App.tsx), shallowly embedded in Lean 4.

Remote calls are modelled by an oracle `env : Nat -> Except GError Response`
giving the outcome of each successive `generateContent` call, together with a
state `St` recording the number of calls made, the requests issued (in order)
and the sleeps performed (in order).  JavaScript exceptions are modelled by
`Except GError`.
-/

namespace PixFrog

/-- JS error object as inspected by the code: `status`, `code` (numeric when
present) and `message`. -/
structure GError where
  status : Option Nat := none
  code : Option Nat := none
  msg : String := ""
  deriving DecidableEq

/-- Anchored character-list match: does `pat` occur at the start of `l`? -/
def isPrefixOfCL : List Char → List Char → Bool
  | [], _ => true
  | _ :: _, [] => false
  | a :: as, b :: bs => a == b && isPrefixOfCL as bs

/-- Does `pat` occur anywhere in `l`? -/
def isInfixOfCL (pat : List Char) : List Char → Bool
  | [] => isPrefixOfCL pat []
  | c :: t => isPrefixOfCL pat (c :: t) || isInfixOfCL pat t

/-- JS string containment test `hay.includes(needle)`. -/
def strIncludes (hay needle : String) : Bool :=
  isInfixOfCL needle.data hay.data

/-- Quota test `isQuotaError` of `retryOperation` (geminiService.ts lines 49-53):
`error.status === 429 || error.code === 429 || message.includes('429') ||
message.includes('quota')`. -/
def isQuotaError (e : GError) : Bool :=
  e.status == some 429 || e.code == some 429 ||
    strIncludes e.msg "429" || strIncludes e.msg "quota"

/-- The 503 test of `retryOperation` (line 65): `error.status === 503 ||
error.code === 503`. -/
def is503Error (e : GError) : Bool :=
  e.status == some 503 || e.code == some 503

/-- Payload `inlineData` of a content part. -/
structure InlineData where
  data : String
  mimeType : String
  deriving DecidableEq

/-- A content part: either inline image data or text (or neither). -/
structure PartR where
  inlineData : Option InlineData := none
  text : Option String := none
  deriving DecidableEq

/-- One response candidate (we keep just its `content.parts`). -/
structure Candidate where
  parts : List PartR
  deriving DecidableEq

/-- A `generateContent` response: optional candidate list and optional
top-level `text` (the latter is what `refinePrompt` reads). -/
structure Response where
  candidates : Option (List Candidate) := none
  text : Option String := none
  deriving DecidableEq

/-- A `generateContent` request as issued by the service: model name, the
plain-string contents used by `refinePrompt`, the part list used by the image
calls, the system instruction, and the `imageConfig.aspectRatio`.  (The
floating-point `temperature: 0.7` of `refinePrompt` is not modelled.) -/
structure GenRequest where
  model : String
  contentsText : Option String := none
  parts : List PartR := []
  systemText : Option String := none
  aspect : Option String := none
  deriving DecidableEq

/-- Trace state threaded through the embedded service: number of remote calls
made so far, the requests issued (in order) and the sleeps performed (ms, in
order). -/
structure St where
  calls : Nat := 0
  log : List GenRequest := []
  sleeps : List Nat := []
  deriving DecidableEq

/-- The initial trace state. -/
def St.init : St := {}

/-- Model of `sleep(ms)` (line 42): records the wait. -/
def sleepSt (ms : Nat) (s : St) : St :=
  { s with sleeps := s.sleeps ++ [ms] }

/-- Model of `ai.models.generateContent(req)`: issues the request, whose outcome is the
next value of the oracle `env`. -/
def callGenerate (env : Nat → Except GError Response) (req : GenRequest)
    (s : St) : Except GError Response × St :=
  (env s.calls, { s with calls := s.calls + 1, log := s.log ++ [req] })

/-- Model of `retryOperation(operation, retries)` (geminiService.ts lines 44-72).
The TS code retries when `isQuotaError && retries > 0` (after an 18 s sleep)
or `(status|code) === 503 && retries > 0` (after a 5 s sleep), with
`retries - 1`, and otherwise rethrows the error; we match on `retries` first,
which is equivalent since both retry branches require `retries > 0` and the
fall-through is the same rethrow. -/
def retryOperation (op : St → Except GError α × St) :
    Nat → St → Except GError α × St
  | retries, s =>
    match op s, retries with
    | (.ok a, s'), _ => (.ok a, s')
    | (.error e, s'), 0 => (.error e, s')
    | (.error e, s'), r + 1 =>
      if isQuotaError e then retryOperation op r (sleepSt 18000 s')
      else if is503Error e then retryOperation op r (sleepSt 5000 s')
      else (.error e, s')

/-- Enumeration `AppMode` of types.ts. -/
inductive AppMode
  | THUMBNAIL | LOGO | BG_REMOVER | BANNER | POSTER | AVATAR | GENERAL
  deriving DecidableEq

/-- String value of each `AppMode` enum member (types.ts). -/
def modeStr : AppMode → String
  | .THUMBNAIL => "YouTube Thumbnail"
  | .LOGO => "Logo Design"
  | .BG_REMOVER => "Background Remover"
  | .BANNER => "Social Media Banner"
  | .POSTER => "Poster Design"
  | .AVATAR => "Profile Avatar"
  | .GENERAL => "General Generation"

/-- Record `LearnedPattern` of memoryService.ts. -/
structure LearnedPattern where
  mode : AppMode
  userInput : String
  refinedPrompt : String
  timestamp : Nat
  deriving DecidableEq

/-- Content of the `pixfrog_brain_v1` localStorage slot, quotiented by what the
memory service can observe: the blob is missing (`getItem` returns null),
unreadable (`JSON.parse` throws, or yields a value on which the array methods
throw), or parses to a list of records. -/
inductive Blob
  | missing
  | corrupt
  | valid (brain : List LearnedPattern)
  deriving DecidableEq

/-- Records held by a blob (empty for a missing or corrupt blob). -/
def blobRecords : Blob → List LearnedPattern
  | .valid brain => brain
  | _ => []

/-- Model of `memoryService.learn(mode, userInput, refinedPrompt)`
(memoryService.ts): parse (a corrupt blob throws inside the `try`, so the
`catch` leaves storage untouched), drop duplicates by exact
(userInput, refinedPrompt) match over any mode, append, shift once when the
length exceeds 100, and store. -/
def memoryLearn (blob : Blob) (mode : AppMode)
    (userInput refinedPrompt : String) (now : Nat) : Blob :=
  match blob with
  | .corrupt => .corrupt
  | _ =>
    let brain := blobRecords blob
    let isDuplicate := brain.any fun b =>
      b.userInput == userInput && b.refinedPrompt == refinedPrompt
    if isDuplicate then blob
    else
      let brain := brain ++ [⟨mode, userInput, refinedPrompt, now⟩]
      let brain := if brain.length > 100 then brain.tail else brain
      .valid brain

/-- The five mode records selected by `memoryService.recall`:
`brain.filter(m => m.mode === mode).reverse().slice(0, 5)`. -/
def recallList (blob : Blob) (mode : AppMode) : List LearnedPattern :=
  (((blobRecords blob).filter fun m => m.mode == mode).reverse).take 5

/-- Separator lines of the recall template (50 dashes; 13 and 67 equals
signs), built by replication to match the source's literal rules. -/
def dashSep : String := String.mk (List.replicate 50 '-')

/-- Thirteen equals signs. -/
def eqSepShort : String := String.mk (List.replicate 13 '=')

/-- Sixty-seven equals signs. -/
def eqSepLong : String := String.mk (List.replicate 67 '=')

/-- Rendering of one style reference of `recall` (index `i`, record `m`). -/
def styleRefText (i : Nat) (m : LearnedPattern) : String :=
  "[STYLE REFERENCE " ++ toString (i + 1) ++ "]\n" ++
  "User Asked For: \"" ++ m.userInput ++ "\"\n" ++
  "You Generated Prompt: \"" ++ m.refinedPrompt ++ "\"\n" ++
  dashSep

/-- Model of `memoryService.recall(mode)` (memoryService.ts): empty string for
a missing blob, for an unreadable blob (the `catch` branch) and when no record
matches the mode; otherwise the learned-styles directive block. -/
def memoryRecall (blob : Blob) (mode : AppMode) : String :=
  match blob with
  | .missing => ""
  | .corrupt => ""
  | .valid _ =>
    let relevantMemories := recallList blob mode
    if relevantMemories.length == 0 then ""
    else
      let formattedMemory := String.intercalate "\n"
        (relevantMemories.enum.map fun p => styleRefText p.1 p.2)
      "\n\n\n" ++ eqSepShort ++
        " LEARNED USER STYLES (SUPERVISED MEMORY) " ++ eqSepShort ++ "\n" ++
      "The user has explicitly LIKED the following output styles. \n" ++
      "You MUST treat these as the \"Gold Standard\" for this user\x27s taste.\n\n" ++
      formattedMemory ++
      "\n\nINSTRUCTION: \n" ++
      "1. Analyze the \"You Generated Prompt\" examples above. \n" ++
      "2. Identify the recurring keywords, lighting choices, camera angles, and artistic styles (e.g., \"neon\", \"minimalist\", \"hyper-realistic\").\n" ++
      "3. APPLY those exact stylistic choices to the NEW request below, unless the user specifically asks for something contradictory.\n" ++
      "4. Do not copy the *subject* (unless requested), but COPY the *style*.\n" ++
      eqSepLong ++ "\n"

/-- Error thrown by `getAiClient` when no API key is configured. -/
def apiKeyError : GError :=
  { msg := "API Key is missing. Please set API_KEY in your environment variables." }

/-- The `SYSTEM_INSTRUCTION_BASE` template of geminiService.ts. -/
def SYSTEM_INSTRUCTION_BASE : String :=
  "\nYou are an expert Prompt Engineer for generative AI models. \n" ++
  "Your task is to take a raw user description and transform it into a professional, high-fidelity image generation prompt based on the selected \"App Mode\".\n\n" ++
  "### CORE PRINCIPLE:\n" ++
  "**Respect the User\x27s Intent.** \n" ++
  "- The \"App Mode\" dictates the *style*, *composition*, and *technical settings*.\n" ++
  "- The \"User Input\" dictates the *subject*, *action*, and *specific details*.\n\n" ++
  "### IMPORTANT: TEXT RENDERING\n" ++
  "If the user asks for text to be written, format it as: text \"SALE\", in bold typography.\n\n" ++
  "### MODE STRATEGIES:\n" ++
  "1. **YouTube Thumbnail** (" ++ modeStr .THUMBNAIL ++ "): High CTR, vibrant, expressive.\n" ++
  "2. **Logo Design** (" ++ modeStr .LOGO ++ "): Vector art, minimalist, white background.\n" ++
  "3. **Background Remover** (" ++ modeStr .BG_REMOVER ++ "): Isolated on solid white background.\n" ++
  "4. **Social Banner** (" ++ modeStr .BANNER ++ "): Wide angle, aesthetic.\n" ++
  "5. **Poster** (" ++ modeStr .POSTER ++ "): Vertical, cinematic.\n" ++
  "6. **Avatar** (" ++ modeStr .AVATAR ++ "): Headshot, centered.\n" ++
  "7. **General** (" ++ modeStr .GENERAL ++ "): High quality digital art.\n\n" ++
  "### OUTPUT FORMAT:\n" ++
  "Return ONLY the final refined prompt string.\n"

/-- Task context string built by `refinePrompt`. -/
def refineContext (userInput : String) (mode : AppMode) (hasImages : Bool) :
    String :=
  if hasImages then
    "Task: Image-to-Image Prompt.\nApp Mode: " ++ modeStr mode ++
      "\nUser Input: \"" ++ userInput ++ "\""
  else
    "Task: Text-to-Image Prompt.\nApp Mode: " ++ modeStr mode ++
      "\nUser Input: \"" ++ userInput ++ "\""

/-- Body of the operation `refinePrompt` hands to `retryOperation`: the inner
`try` covers `getAiClient`, the recall, the remote call and the response read,
and its `catch` returns `userInput`, so the operation never throws.  A missing
key (`hasKey = false`) makes `getAiClient` throw, which the `catch` absorbs.
`response.text?.trim() || userInput` yields `userInput` when `text` is absent
or trims to the empty string. -/
def refineOp (env : Nat → Except GError Response) (hasKey : Bool) (blob : Blob)
    (userInput : String) (mode : AppMode) (hasImages : Bool) (s : St) :
    Except GError String × St :=
  if hasKey then
    let learnedContext := memoryRecall blob mode
    let (r, s') := callGenerate env
      { model := "gemini-2.5-flash",
        contentsText := some (refineContext userInput mode hasImages),
        systemText := some (SYSTEM_INSTRUCTION_BASE ++ learnedContext) } s
    match r with
    | .ok resp =>
      (.ok (match resp.text with
            | some t => if t.trim == "" then userInput else t.trim
            | none => userInput), s')
    | .error _ => (.ok userInput, s')
  else (.ok userInput, s)

/-- Model of `refinePrompt(userInput, mode, hasImages)` (geminiService.ts
lines 102-127): the guarded operation under `retryOperation` with budget 1. -/
def refinePrompt (env : Nat → Except GError Response) (hasKey : Bool)
    (blob : Blob) (userInput : String) (mode : AppMode) (hasImages : Bool)
    (s : St) : Except GError String × St :=
  retryOperation (refineOp env hasKey blob userInput mode hasImages) 1 s

/-- High-fidelity tier model name used when `usePro` holds. -/
def proImageModel : String := "gemini-3-pro-image-preview"

/-- Standard tier model name. -/
def flashImageModel : String := "gemini-2.5-flash-image"

/-- Scan of `response.candidates[0].content.parts` for the first part with
`inlineData`, returned as a png data URL. -/
def firstInlineImage : List PartR → Option String
  | [] => none
  | p :: rest =>
    match p.inlineData with
    | some d => some ("data:image/png;base64," ++ d.data)
    | none => firstInlineImage rest

/-- JS TypeError raised when `candidates` is a (truthy) empty array and
`candidates[0].content` is read. -/
def undefinedAccessError : GError :=
  { msg := "Cannot read properties of undefined" }

/-- Image extraction of `generateImage` / `generateWithImages`: when
`candidates` is absent the guard is falsy and the result is null; when it is
present but empty, reading `candidates[0].content` throws; otherwise the first
`inlineData` part (if any) becomes the data URL. -/
def extractImage (resp : Response) : Except GError (Option String) :=
  match resp.candidates with
  | some (c :: _) => .ok (firstInlineImage c.parts)
  | some [] => .error undefinedAccessError
  | none => .ok none

/-- Request issued by one `attemptGen` body: chosen model, the prompt as sole
part, and the aspect ratio config. -/
def textOnlyReq (usePro : Bool) (prompt aspect : String) : GenRequest :=
  { model := if usePro then proImageModel else flashImageModel,
    parts := [{ text := some prompt }],
    aspect := some aspect }

/-- Body of `attemptGen(false)` (standard tier): call, extract; the `catch`
rethrows (`usePro` is false), so errors propagate to `retryOperation`. -/
def opFlash (env : Nat → Except GError Response) (prompt aspect : String)
    (s : St) : Except GError (Option String) × St :=
  let (r, s') := callGenerate env (textOnlyReq false prompt aspect) s
  match r with
  | .ok resp => (extractImage resp, s')
  | .error e => (.error e, s')

/-- Standard-tier attempt: `attemptGen(false) = retryOperation(body, 2)`. -/
def attemptGenFlash (env : Nat → Except GError Response)
    (prompt aspect : String) (s : St) : Except GError (Option String) × St :=
  retryOperation (opFlash env prompt aspect) 2 s

/-- Body of `attemptGen(true)` (high tier): call, extract; on any error the
`catch` sees `usePro` true and immediately returns `attemptGen(false)` — the
whole standard-tier attempt, including its own retry budget. -/
def opPro (env : Nat → Except GError Response) (prompt aspect : String)
    (s : St) : Except GError (Option String) × St :=
  let (r, s') := callGenerate env (textOnlyReq true prompt aspect) s
  match (match r with | .ok resp => extractImage resp | .error e => .error e) with
  | .ok v => (.ok v, s')
  | .error _ => attemptGenFlash env prompt aspect s'

/-- High-tier attempt: `attemptGen(true) = retryOperation(body, 2)`. -/
def attemptGenPro (env : Nat → Except GError Response)
    (prompt aspect : String) (s : St) : Except GError (Option String) × St :=
  retryOperation (opPro env prompt aspect) 2 s

/-- Model of `generateImage(prompt, aspectRatio, highQuality)` (geminiService.ts
lines 133-174): `getAiClient()` runs before `attemptGen`, so a missing key
throws out of the whole function; then `attemptGen(highQuality)`. -/
def generateImage (env : Nat → Except GError Response) (hasKey : Bool)
    (prompt aspect : String) (highQuality : Bool) (s : St) :
    Except GError (Option String) × St :=
  if hasKey then
    if highQuality then attemptGenPro env prompt aspect s
    else attemptGenFlash env prompt aspect s
  else (.error apiKeyError, s)

/-- JS word character (`\w` of the mime regex): ASCII letter, digit or
underscore. -/
def wordChar (c : Char) : Bool := c.isAlphanum || c == '_'

/-- Capture of `img.match(/^data:(image\w+);base64,/)` (with an escaped
slash after `image` in the source regex): the declared mime type, when the
data URL head is well-formed. -/
def parseMime (img : String) : Option String :=
  let l := img.data
  if isPrefixOfCL "data:image/".data l then
    let rest := l.drop ("data:image/".data.length)
    let w := rest.takeWhile wordChar
    if w.length > 0 && isPrefixOfCL ";base64,".data (rest.drop w.length) then
      some ("image/" ++ String.mk w)
    else none
  else none

/-- Mime type attached by `generateWithImages`: the captured declared type,
or `image/png` when the head does not match. -/
def mimeTypeOf (img : String) : String := (parseMime img).getD "image/png"

/-- Removal of one literal head when it is an anchored match. -/
def stripHead (h img : String) : Option String :=
  if isPrefixOfCL h.data img.data then some (String.mk (img.data.drop h.length))
  else none

/-- Model of `img.replace(/^data:image\(png|jpeg|jpg|webp);base64,/, '')`
(alternatives tried in source order; at most one can match since the head is
anchored and ends in `;base64,`). -/
def cleanBase64 (img : String) : String :=
  match stripHead "data:image/png;base64," img with
  | some r => r
  | none =>
    match stripHead "data:image/jpeg;base64," img with
    | some r => r
    | none =>
      match stripHead "data:image/jpg;base64," img with
      | some r => r
      | none =>
        match stripHead "data:image/webp;base64," img with
        | some r => r
        | none => img

/-- Part built from one reference image by `generateWithImages`. -/
def imagePart (img : String) : PartR :=
  { inlineData := some { data := cleanBase64 img, mimeType := mimeTypeOf img } }

/-- Part list sent by `generateWithImages`: one inline part per reference
image, in order, then the text prompt. -/
def multiParts (imgs : List String) (prompt : String) : List PartR :=
  imgs.map imagePart ++ [{ text := some prompt }]

/-- Body of the operation `generateWithImages` hands to `retryOperation`:
`getAiClient` runs inside the `try` but the `catch` rethrows, so a missing key
propagates; otherwise one standard-tier multimodal call. -/
def opWithImages (env : Nat → Except GError Response) (hasKey : Bool)
    (imgs : List String) (prompt aspect : String) (s : St) :
    Except GError (Option String) × St :=
  if hasKey then
    let (r, s') := callGenerate env
      { model := flashImageModel, parts := multiParts imgs prompt,
        aspect := some aspect } s
    match r with
    | .ok resp => (extractImage resp, s')
    | .error e => (.error e, s')
  else (.error apiKeyError, s)

/-- Model of `generateWithImages(base64Images, prompt, aspectRatio)`
(geminiService.ts lines 176-217): the body under `retryOperation` with
budget 2. -/
def generateWithImages (env : Nat → Except GError Response) (hasKey : Bool)
    (imgs : List String) (prompt aspect : String) (s : St) :
    Except GError (Option String) × St :=
  retryOperation (opWithImages env hasKey imgs prompt aspect) 2 s

/-- Message roles of types.ts. -/
inductive Role
  | user | assistant | system
  deriving DecidableEq

/-- Metadata attached to assistant messages (types.ts). -/
structure MsgMeta where
  originalPrompt : Option String := none
  finalPrompt : Option String := none
  liked : Option Bool := none
  deriving DecidableEq

/-- Record `ChatMessage` of types.ts. -/
structure ChatMessage where
  role : Role
  content : String
  images : Option (List String) := none
  timestamp : Nat
  metadata : Option MsgMeta := none
  deriving DecidableEq

/-- Record `GenerationConfig` of types.ts (`aspect` embeds the `aspectRatio`
field; the optional `style` field is unused by the orchestrator). -/
structure GenerationConfig where
  aspect : String
  highQuality : Bool
  deriving DecidableEq

/-- App state owned by the orchestrator: per-mode histories (a missing key
reads as the empty list), the nullable generating-mode flag, and the
localStorage blob of the memory store. -/
structure AppState where
  histories : AppMode → List ChatMessage
  generatingMode : Option AppMode := none
  blob : Blob := .missing

/-- Functional update of one mode's history. -/
def updateHist (h : AppMode → List ChatMessage) (m : AppMode)
    (v : List ChatMessage) : AppMode → List ChatMessage :=
  fun x => if x = m then v else h x

/-- Mode-specific fallback prompts of `handleSendMessage` (App.tsx lines
188-192), used when the refined prompt is empty. -/
def fallbackPrompt : AppMode → String
  | .BG_REMOVER => "Isolate the subject on white background."
  | .THUMBNAIL => "YouTube thumbnail."
  | _ => "High quality image."

/-- JS `error.message || "Unknown error"`. -/
def errMessageOf (e : GError) : String :=
  if e.msg == "" then "Unknown error" else e.msg

/-- Error-message classification of `handleSendMessage` (App.tsx lines
224-232). -/
def classifyError (errMessage : String) : String :=
  if strIncludes errMessage "429" || strIncludes errMessage "quota" ||
      strIncludes errMessage "RESOURCE_EXHAUSTED" then
    "Server traffic is high (Quota Limit). Please wait a moment and try again."
  else if strIncludes errMessage "403" then
    "API Key Invalid or Access Denied. Please check your environment configuration."
  else if strIncludes errMessage "API Key is missing" then
    "API Key not found. Please ensure you have connected your account."
  else if strIncludes errMessage "SAFETY" then
    "Generation blocked by safety filters. Try a different prompt."
  else errMessage

/-- Error thrown by `handleSendMessage` when generation returns null. -/
def noImageError : GError := { msg := "No image data returned from API." }

/-- JS truthiness of `imageInputs && imageInputs.length > 0`. -/
def sendHasImages (imageInputs : Option (List String)) : Bool :=
  match imageInputs with
  | some l => l.length > 0
  | none => false

/-- Refinement step of `handleSendMessage` (App.tsx lines 177-185): when the
trimmed text is nonempty or there are no reference images, call `refinePrompt`
(its own `catch` falls back to `text`); otherwise keep `text`. -/
def sendRefined (env : Nat → Except GError Response) (hasKey : Bool)
    (blob : Blob) (text : String) (mode : AppMode)
    (imageInputs : Option (List String)) : String × St :=
  let hasImages := sendHasImages imageInputs
  if text.trim.length > 0 || !hasImages then
    let (r, s') := refinePrompt env hasKey blob text mode hasImages St.init
    (match r with | .ok v => v | .error _ => text, s')
  else (text, St.init)

/-- Prompt actually passed to generation: the refined prompt, or the
mode-specific fallback when it is empty (`!finalPrompt || finalPrompt === ""`
tests exactly emptiness of a string). -/
def sendFinalPrompt (env : Nat → Except GError Response) (hasKey : Bool)
    (blob : Blob) (text : String) (mode : AppMode)
    (imageInputs : Option (List String)) : String :=
  let fp := (sendRefined env hasKey blob text mode imageInputs).1
  if fp == "" then fallbackPrompt mode else fp

/-- Generation step of `handleSendMessage` (App.tsx lines 195-199): remix when
reference images are present, text-to-image otherwise, with the session
config. -/
def sendGenResult (env : Nat → Except GError Response) (hasKey : Bool)
    (cfg : GenerationConfig) (mode : AppMode) (text : String)
    (imageInputs : Option (List String)) (blob : Blob) :
    Except GError (Option String) × St :=
  let s1 := (sendRefined env hasKey blob text mode imageInputs).2
  let finalPrompt := sendFinalPrompt env hasKey blob text mode imageInputs
  if sendHasImages imageInputs then
    generateWithImages env hasKey (imageInputs.getD []) finalPrompt cfg.aspect s1
  else
    generateImage env hasKey finalPrompt cfg.aspect cfg.highQuality s1

/-- The optimistic user message appended on entry to `handleSendMessage`. -/
def userMsgOf (text : String) (imageInputs : Option (List String)) (now : Nat) :
    ChatMessage :=
  { role := .user, content := text, images := imageInputs, timestamp := now }

/-- The assistant message `handleSendMessage` appends: a success message with
image and metadata when generation yielded an image; otherwise (null result,
turned into a thrown error, or a thrown error) a classified warning message
with no metadata. -/
def assistantMsgOf (mode : AppMode) (text finalPrompt : String)
    (genRes : Except GError (Option String)) (now : Nat) : ChatMessage :=
  match genRes with
  | .ok (some url) =>
    { role := .assistant,
      content := "Here is your " ++ modeStr mode ++ " design!",
      images := some [url], timestamp := now,
      metadata := some { originalPrompt := some text,
                         finalPrompt := some finalPrompt,
                         liked := some false } }
  | .ok none =>
    { role := .assistant,
      content := "⚠️ " ++ classifyError (errMessageOf noImageError),
      timestamp := now }
  | .error e =>
    { role := .assistant,
      content := "⚠️ " ++ classifyError (errMessageOf e),
      timestamp := now }

/-- The assistant message appended by one `handleSendMessage` run, as a
function of the oracle and inputs. -/
def sendAssistantMsg (env : Nat → Except GError Response) (hasKey : Bool)
    (cfg : GenerationConfig) (mode : AppMode) (text : String)
    (imageInputs : Option (List String)) (blob : Blob) (now : Nat) :
    ChatMessage :=
  assistantMsgOf mode text (sendFinalPrompt env hasKey blob text mode imageInputs)
    (sendGenResult env hasKey cfg mode text imageInputs blob).1 now

/-- Model of `handleSendMessage(text, imageInputs)` (App.tsx lines 156-245) as
one sequential task: append the user message and set the generating flag, run
refinement then generation, append the resulting assistant message (success or
classified failure), and in the `finally` clause reset the generating flag via
`prev === activeMode ? null : prev`. -/
def handleSendMessage (env : Nat → Except GError Response) (hasKey : Bool)
    (cfg : GenerationConfig) (activeMode : AppMode) (text : String)
    (imageInputs : Option (List String)) (st : AppState) (now : Nat) :
    AppState × St :=
  let st1 : AppState :=
    { st with
      histories := updateHist st.histories activeMode
        (st.histories activeMode ++ [userMsgOf text imageInputs now]),
      generatingMode := some activeMode }
  let s2 := (sendGenResult env hasKey cfg activeMode text imageInputs st.blob).2
  let st2 : AppState :=
    { st1 with
      histories := updateHist st1.histories activeMode
        (st1.histories activeMode ++
          [sendAssistantMsg env hasKey cfg activeMode text imageInputs st.blob
            now]) }
  ({ st2 with
     generatingMode :=
       if st2.generatingMode == some activeMode then none
       else st2.generatingMode }, s2)

/-- Model of `handleLikeMessage(index)` (App.tsx lines 127-154): a no-op
unless the indexed message exists, is assistant-role and carries a truthy
`metadata.finalPrompt`; then learn from the preceding user message (when it is
user-role with nonempty content) and flip the `liked` flag. -/
def handleLikeMessage (st : AppState) (currentMode : AppMode) (index : Nat)
    (now : Nat) : AppState :=
  let messages := st.histories currentMode
  match messages[index]? with
  | none => st
  | some message =>
    match message.metadata with
    | none => st
    | some meta =>
      match meta.finalPrompt with
      | none => st
      | some fp =>
        if message.role == .assistant && fp != "" then
          let userInput :=
            match (if index == 0 then none else messages[index - 1]?) with
            | some um => if um.role == .user then um.content else ""
            | none => ""
          let blob' :=
            if userInput != "" then
              memoryLearn st.blob currentMode userInput fp now
            else st.blob
          let newMessages := messages.set index
            { message with metadata := some { meta with liked := some true } }
          { st with blob := blob',
                    histories := updateHist st.histories currentMode newMessages }
        else st

/-! ## Helper lemmas -/

/-- One-step unfolding of `retryOperation`. -/
theorem retryOperation_step (op : St → Except GError α × St) (retries : Nat)
    (s : St) :
    retryOperation op retries s =
      match op s, retries with
      | (.ok a, s'), _ => (.ok a, s')
      | (.error e, s'), 0 => (.error e, s')
      | (.error e, s'), r + 1 =>
        if isQuotaError e then retryOperation op r (sleepSt 18000 s')
        else if is503Error e then retryOperation op r (sleepSt 5000 s')
        else (.error e, s') := by
  rw [retryOperation.eq_def]

/-! ## C2: retry-policy classification -/

/-- C2: for every wrapped operation and retry budget, a failure whose
status/code is 429 or whose message contains "429" or "quota" is retried after
the fixed 18 s cooldown with the budget decremented; a failure that is not
quota-classified but has status/code 503 is retried after the short fixed 5 s
delay under the same (decremented) budget; any other failure is propagated
immediately without retrying; and once the budget is exhausted the error is
propagated unchanged. -/
theorem retryOperation_classification (op : St → Except GError α × St)
    (retries : Nat) (s : St) (e : GError) (s' : St)
    (hop : op s = (.error e, s')) :
    (isQuotaError e = true → 0 < retries →
      retryOperation op retries s =
        retryOperation op (retries - 1) (sleepSt 18000 s')) ∧
    (isQuotaError e = false → is503Error e = true → 0 < retries →
      retryOperation op retries s =
        retryOperation op (retries - 1) (sleepSt 5000 s')) ∧
    (isQuotaError e = false → is503Error e = false →
      retryOperation op retries s = (.error e, s')) ∧
    (retries = 0 → retryOperation op retries s = (.error e, s')) := by
  refine ⟨?_, ?_, ?_, ?_⟩
  · intro hq hr
    obtain ⟨r, rfl⟩ : ∃ r, retries = r + 1 :=
      ⟨retries - 1, (Nat.succ_pred_eq_of_pos hr).symm⟩
    rw [retryOperation_step, hop]
    simp [hq]
  · intro hq h5 hr
    obtain ⟨r, rfl⟩ : ∃ r, retries = r + 1 :=
      ⟨retries - 1, (Nat.succ_pred_eq_of_pos hr).symm⟩
    rw [retryOperation_step, hop]
    simp [hq, h5]
  · intro hq h5
    cases retries with
    | zero => rw [retryOperation_step, hop]
    | succ r => rw [retryOperation_step, hop]; simp [hq, h5]
  · intro h0
    subst h0
    rw [retryOperation_step, hop]

/-- Concrete 429 error used by witnesses and counterexamples. -/
def err429 : GError := { status := some 429 }

/-- Witness for C2 at a concrete operation: a 429 failure with budget 1 is
retried after an 18 s sleep with budget 0, and with budget 0 the error is
propagated unchanged. -/
theorem retryOperation_classification_witness :
    retryOperation (fun s => ((.error err429 : Except GError Nat), s)) 1 St.init =
      retryOperation (fun s => ((.error err429 : Except GError Nat), s)) 0
        (sleepSt 18000 St.init) ∧
    retryOperation (fun s => ((.error err429 : Except GError Nat), s)) 0 St.init =
      (.error err429, St.init) :=
  ⟨(retryOperation_classification _ 1 St.init err429 St.init rfl).1
      (by decide) (by decide),
   (retryOperation_classification _ 0 St.init err429 St.init rfl).2.2.2 rfl⟩

/-! ## C3: refinePrompt never propagates an error -/

/-- Auxiliary: the operation wrapped by `refinePrompt` never fails. -/
theorem refineOp_ne_error (env : Nat → Except GError Response) (hasKey : Bool)
    (blob : Blob) (userInput : String) (mode : AppMode) (hasImages : Bool)
    (s : St) (e : GError) (s' : St) :
    refineOp env hasKey blob userInput mode hasImages s ≠ (.error e, s') := by
  intro hop
  cases hasKey with
  | false => simp [refineOp] at hop
  | true =>
    cases h : env s.calls with
    | error e2 => simp [refineOp, callGenerate, h] at hop
    | ok resp =>
      cases ht : resp.text with
      | none => simp [refineOp, callGenerate, h, ht] at hop
      | some t => simp [refineOp, callGenerate, h, ht] at hop

/-- C3: `refinePrompt` never propagates an error to its caller: for every
user input, mode and `hasImages` flag it resolves to an `ok` value, and when
the client cannot be constructed (no API key), the remote text call fails, or
the response text is missing or trims to the empty string, it returns the user
input unchanged. -/
theorem refinePrompt_fallback (env : Nat → Except GError Response)
    (hasKey : Bool) (blob : Blob) (userInput : String) (mode : AppMode)
    (hasImages : Bool) (s : St) :
    (∃ v, (refinePrompt env hasKey blob userInput mode hasImages s).1 =
      .ok v) ∧
    (hasKey = false →
      refinePrompt env hasKey blob userInput mode hasImages s =
        (.ok userInput, s)) ∧
    (∀ e, env s.calls = .error e →
      (refinePrompt env hasKey blob userInput mode hasImages s).1 =
        .ok userInput) ∧
    (∀ resp, env s.calls = .ok resp → (resp.text.getD "").trim = "" →
      (refinePrompt env hasKey blob userInput mode hasImages s).1 =
        .ok userInput) := by
  refine ⟨?_, ?_, ?_, ?_⟩
  · rcases hop : refineOp env hasKey blob userInput mode hasImages s with ⟨r, s'⟩
    cases r with
    | ok v => exact ⟨v, by rw [refinePrompt, retryOperation_step, hop]⟩
    | error e =>
      exact absurd hop
        (refineOp_ne_error env hasKey blob userInput mode hasImages s e s')
  · intro hk
    subst hk
    rw [refinePrompt, retryOperation_step]
    rfl
  · intro e he
    cases hasKey with
    | false => rw [refinePrompt, retryOperation_step]; rfl
    | true =>
      rw [refinePrompt, retryOperation_step]
      simp [refineOp, callGenerate, he]
  · intro resp hresp htrim
    cases hasKey with
    | false => rw [refinePrompt, retryOperation_step]; rfl
    | true =>
      rw [refinePrompt, retryOperation_step]
      cases htext : resp.text with
      | none => simp [refineOp, callGenerate, hresp, htext]
      | some t =>
        rw [htext] at htrim
        simp only [Option.getD_some] at htrim
        simp [refineOp, callGenerate, hresp, htext, htrim]

/-- Concrete always-failing oracle. -/
def envBoom : Nat → Except GError Response := fun _ => .error { msg := "boom" }

/-- Witness for C3: with a failing remote call, `refinePrompt` returns the
user input. -/
theorem refinePrompt_fallback_witness :
    (refinePrompt envBoom true .missing "hi" .LOGO false St.init).1 =
      .ok "hi" :=
  (refinePrompt_fallback envBoom true .missing "hi" .LOGO false St.init).2.2.1
    { msg := "boom" } rfl

/-! ## C4: recall returns at most five mode records, most recent first -/

/-- C4: for every mode and persisted blob, `recall` selects records only for
that mode, ordered most-recently-added first (the first five of the reversed
record sequence filtered to the mode), at most 5 of them, all drawn from the
stored sequence; and it renders the empty string when the blob is missing,
when it is unreadable, and when no record matches the mode. -/
theorem recall_spec (blob : Blob) (mode : AppMode) :
    recallList blob mode =
      (((blobRecords blob).reverse).filter fun m => m.mode == mode).take 5 ∧
    (∀ q ∈ recallList blob mode, q.mode = mode) ∧
    (recallList blob mode).length ≤ 5 ∧
    (recallList blob mode).Sublist (blobRecords blob).reverse ∧
    (blob = .missing → memoryRecall blob mode = "") ∧
    (blob = .corrupt → memoryRecall blob mode = "") ∧
    ((blobRecords blob).filter (fun m => m.mode == mode) = [] →
      memoryRecall blob mode = "") := by
  refine ⟨?_, ?_, ?_, ?_, ?_, ?_, ?_⟩
  · unfold recallList
    rw [List.filter_reverse]
  · intro q hq
    have h1 : q ∈ ((blobRecords blob).filter fun m => m.mode == mode).reverse :=
      (List.take_sublist 5 _).subset hq
    have h2 := List.mem_filter.mp (List.mem_reverse.mp h1)
    exact eq_of_beq h2.2
  · unfold recallList
    rw [List.length_take]
    exact inf_le_left
  · unfold recallList
    exact (List.take_sublist 5 _).trans
      (List.filter_sublist (blobRecords blob)).reverse
  · intro h; subst h; rfl
  · intro h; subst h; rfl
  · intro h
    cases blob with
    | missing => rfl
    | corrupt => rfl
    | valid brain =>
      simp only [blobRecords] at h
      simp [memoryRecall, recallList, blobRecords, h]

/-- Witness for C4 at a concrete store: one LOGO record, recalled for
THUMBNAIL, renders the empty string and selects at most five records. -/
theorem recall_spec_witness :
    memoryRecall (.valid [⟨.LOGO, "a", "b", 0⟩]) .THUMBNAIL = "" ∧
    (recallList (.valid [⟨.LOGO, "a", "b", 0⟩]) .THUMBNAIL).length ≤ 5 :=
  ⟨(recall_spec (.valid [⟨.LOGO, "a", "b", 0⟩]) .THUMBNAIL).2.2.2.2.2.2
      (by decide),
   (recall_spec (.valid [⟨.LOGO, "a", "b", 0⟩]) .THUMBNAIL).2.2.1⟩

/-! ## C5: the stored sequence is capped at 100 records -/

/-- C5: starting from any blob holding at most 100 records, `learn` leaves at
most 100 records; and inserting a non-duplicate record into a full
100-record sequence evicts exactly the oldest (first) record. -/
theorem learn_cap (blob : Blob) (mode : AppMode)
    (userInput refinedPrompt : String) (now : Nat)
    (h : (blobRecords blob).length ≤ 100) :
    (blobRecords (memoryLearn blob mode userInput refinedPrompt now)).length ≤
      100 ∧
    (∀ brain, blob = .valid brain → brain.length = 100 →
      (brain.any fun b =>
        b.userInput == userInput && b.refinedPrompt == refinedPrompt) = false →
      memoryLearn blob mode userInput refinedPrompt now =
        .valid (brain.tail ++ [⟨mode, userInput, refinedPrompt, now⟩])) := by
  constructor
  · cases blob with
    | corrupt => simp [memoryLearn, blobRecords]
    | missing => simp [memoryLearn, blobRecords]
    | valid brain =>
      cases hdup : brain.any fun b =>
          b.userInput == userInput && b.refinedPrompt == refinedPrompt with
      | true => simpa [memoryLearn, blobRecords, hdup] using h
      | false =>
        simp only [memoryLearn, blobRecords, hdup] at h ⊢
        simp only [Bool.false_eq_true, if_false]
        split
        · next hlen =>
          simp only [List.length_tail, List.length_append, List.length_cons,
            List.length_nil] at hlen ⊢
          omega
        · next hlen =>
          simp only [List.length_append, List.length_cons,
            List.length_nil] at hlen ⊢
          omega
  · intro brain hbl h100 hdup
    subst hbl
    cases brain with
    | nil => simp at h100
    | cons a as =>
      have h99 : as.length = 99 := by
        simp only [List.length_cons] at h100
        omega
      simp only [memoryLearn, blobRecords, hdup, Bool.false_eq_true, if_false]
      rw [if_pos (by simp [h99])]
      rfl

/-- A full 100-record store used by the C5 witness. -/
def blob100 : Blob := .valid (List.replicate 100 ⟨.LOGO, "a", "p", 0⟩)

/-- Witness for C5: learning a fresh pair into a full 100-record store keeps
100 records and evicts the first one. -/
theorem learn_cap_witness :
    (blobRecords (memoryLearn blob100 .LOGO "b" "q" 1)).length ≤ 100 ∧
    memoryLearn blob100 .LOGO "b" "q" 1 =
      .valid ((List.replicate 100
          (⟨.LOGO, "a", "p", 0⟩ : LearnedPattern)).tail ++
        [⟨.LOGO, "b", "q", 1⟩]) :=
  ⟨(learn_cap blob100 .LOGO "b" "q" 1 (by decide)).1,
   (learn_cap blob100 .LOGO "b" "q" 1 (by decide)).2 _ rfl (by decide)
     (by decide)⟩

/-! ## C6: learn is idempotent on duplicates -/

/-- C6: when a record with the same (userInput, refinedPrompt) pair already
exists in the store (under any mode), `learn` leaves the blob unchanged; and
starting from a missing blob or a readable store holding no such pair, two
`learn` calls with identical arguments leave exactly one matching record. -/
theorem learn_idempotent (blob : Blob) (mode : AppMode) (ui rp : String)
    (t1 t2 : Nat) :
    (((blobRecords blob).any fun b =>
        b.userInput == ui && b.refinedPrompt == rp) = true →
      memoryLearn blob mode ui rp t1 = blob) ∧
    ((blob = .missing ∨ ∃ brain, blob = .valid brain ∧
        (brain.any fun b => b.userInput == ui && b.refinedPrompt == rp) =
          false) →
      ((blobRecords (memoryLearn (memoryLearn blob mode ui rp t1) mode ui rp
          t2)).filter fun b =>
            b.userInput == ui && b.refinedPrompt == rp).length = 1) := by
  constructor
  · intro hdup
    cases blob with
    | corrupt => rfl
    | missing => simp [blobRecords] at hdup
    | valid brain =>
      simp only [blobRecords] at hdup
      simp [memoryLearn, blobRecords, hdup]
  · intro hcase
    rcases hcase with rfl | ⟨brain, rfl, hdup⟩
    · have h1 : memoryLearn .missing mode ui rp t1 =
          .valid [(⟨mode, ui, rp, t1⟩ : LearnedPattern)] := by
        simp [memoryLearn, blobRecords]
      rw [h1]
      have h2 : memoryLearn (.valid [(⟨mode, ui, rp, t1⟩ : LearnedPattern)]) mode ui rp t2 =
          .valid [(⟨mode, ui, rp, t1⟩ : LearnedPattern)] := by
        simp [memoryLearn, blobRecords]
      rw [h2]
      simp [blobRecords]
    · have hfil : brain.filter
          (fun b => b.userInput == ui && b.refinedPrompt == rp) = [] :=
        List.filter_eq_nil_iff.mpr (by
          intro b hb
          have := List.any_eq_false.mp hdup b hb
          simpa using this)
      by_cases hlen : (brain ++ [(⟨mode, ui, rp, t1⟩ : LearnedPattern)]).length > 100
      · cases brain with
        | nil => simp at hlen
        | cons a as =>
          have hfas : as.filter
              (fun b => b.userInput == ui && b.refinedPrompt == rp) = [] := by
            rw [List.filter_cons] at hfil
            split at hfil
            · exact absurd hfil (by simp)
            · exact hfil
          have h1 : memoryLearn (.valid (a :: as)) mode ui rp t1 =
              .valid (as ++ [(⟨mode, ui, rp, t1⟩ : LearnedPattern)]) := by
            simp only [memoryLearn, blobRecords, hdup, Bool.false_eq_true,
              if_false]
            rw [if_pos hlen]
            rfl
          have hany : ((as ++ [(⟨mode, ui, rp, t1⟩ : LearnedPattern)]).any
              fun b => b.userInput == ui && b.refinedPrompt == rp) = true := by
            rw [List.any_eq_true]
            exact ⟨(⟨mode, ui, rp, t1⟩ : LearnedPattern), by simp, by simp⟩
          have h2 : memoryLearn (.valid (as ++ [(⟨mode, ui, rp, t1⟩ : LearnedPattern)])) mode ui
              rp t2 = .valid (as ++ [(⟨mode, ui, rp, t1⟩ : LearnedPattern)]) := by
            simp [memoryLearn, blobRecords, hany]
          rw [h1, h2]
          simp only [blobRecords]
          rw [List.filter_append, hfas]
          simp
      · have h1 : memoryLearn (.valid brain) mode ui rp t1 =
            .valid (brain ++ [(⟨mode, ui, rp, t1⟩ : LearnedPattern)]) := by
          simp only [memoryLearn, blobRecords, hdup, Bool.false_eq_true,
            if_false]
          rw [if_neg hlen]
        have hany : ((brain ++ [(⟨mode, ui, rp, t1⟩ : LearnedPattern)]).any
            fun b => b.userInput == ui && b.refinedPrompt == rp) = true := by
          rw [List.any_eq_true]
          exact ⟨(⟨mode, ui, rp, t1⟩ : LearnedPattern), by simp, by simp⟩
        have h2 : memoryLearn (.valid (brain ++ [(⟨mode, ui, rp, t1⟩ : LearnedPattern)])) mode ui
            rp t2 = .valid (brain ++ [(⟨mode, ui, rp, t1⟩ : LearnedPattern)]) := by
          simp [memoryLearn, blobRecords, hany]
        rw [h1, h2]
        simp only [blobRecords]
        rw [List.filter_append, hfil]
        simp

/-- Witness for C6: from a missing store, two identical learns leave exactly
one matching record; and learning an already-present pair (stored under a
different mode) leaves the store unchanged. -/
theorem learn_idempotent_witness :
    ((blobRecords (memoryLearn (memoryLearn .missing .LOGO "a" "b" 1) .LOGO
        "a" "b" 2)).filter
          fun b => b.userInput == "a" && b.refinedPrompt == "b").length = 1 ∧
    memoryLearn (.valid [⟨.AVATAR, "a", "b", 0⟩]) .LOGO "a" "b" 9 =
      .valid [⟨.AVATAR, "a", "b", 0⟩] :=
  ⟨(learn_idempotent .missing .LOGO "a" "b" 1 2).2 (Or.inl rfl),
   (learn_idempotent (.valid [⟨.AVATAR, "a", "b", 0⟩]) .LOGO "a" "b" 9 0).1
     (by decide)⟩

/-! ## Log-monotonicity helpers -/

/-- Requests are only appended: `retryOperation` preserves log monotonicity of
its operation. -/
theorem retryOperation_log_mono (op : St → Except GError α × St)
    (hmono : ∀ s, ∃ t, ((op s).2).log = s.log ++ t) :
    ∀ retries s, ∃ t, ((retryOperation op retries s).2).log = s.log ++ t := by
  intro retries
  induction retries with
  | zero =>
    intro s
    obtain ⟨t, ht⟩ := hmono s
    rcases hop : op s with ⟨res, s'⟩
    rw [hop] at ht
    cases res with
    | ok a => rw [retryOperation_step, hop]; exact ⟨t, ht⟩
    | error e => rw [retryOperation_step, hop]; exact ⟨t, ht⟩
  | succ r ih =>
    intro s
    obtain ⟨t, ht⟩ := hmono s
    rcases hop : op s with ⟨res, s'⟩
    rw [hop] at ht
    cases res with
    | ok a => rw [retryOperation_step, hop]; exact ⟨t, ht⟩
    | error e =>
      rw [retryOperation_step, hop]
      by_cases hq : isQuotaError e = true
      · simp only [hq, if_true]
        obtain ⟨t2, ht2⟩ := ih (sleepSt 18000 s')
        exact ⟨t ++ t2, by
          rw [ht2]
          show s'.log ++ t2 = s.log ++ (t ++ t2)
          rw [ht, List.append_assoc]⟩
      · simp only [hq, if_false, Bool.not_eq_true] at *
        by_cases h5 : is503Error e = true
        · simp only [hq, h5, Bool.false_eq_true, if_false, if_true]
          obtain ⟨t2, ht2⟩ := ih (sleepSt 5000 s')
          exact ⟨t ++ t2, by
            rw [ht2]
            show s'.log ++ t2 = s.log ++ (t ++ t2)
            rw [ht, List.append_assoc]⟩
        · simp only [hq, h5, Bool.false_eq_true, if_false,
            Bool.not_eq_true] at *
          exact ⟨t, ht⟩

/-- The final log of `retryOperation` extends the log of the first attempt. -/
theorem retryOperation_log_extends (op : St → Except GError α × St)
    (hmono : ∀ s, ∃ t, ((op s).2).log = s.log ++ t) (retries : Nat) (s : St) :
    ∃ t, ((retryOperation op retries s).2).log = ((op s).2).log ++ t := by
  rcases hop : op s with ⟨res, s'⟩
  cases res with
  | ok a => rw [retryOperation_step, hop]; exact ⟨[], by simp [hop]⟩
  | error e =>
    cases retries with
    | zero => rw [retryOperation_step, hop]; exact ⟨[], by simp [hop]⟩
    | succ r =>
      rw [retryOperation_step, hop]
      by_cases hq : isQuotaError e = true
      · simp only [hq, if_true]
        obtain ⟨t, ht⟩ :=
          retryOperation_log_mono op hmono r (sleepSt 18000 s')
        exact ⟨t, by rw [ht]; rfl⟩
      · simp only [hq, Bool.not_eq_true] at *
        by_cases h5 : is503Error e = true
        · simp only [hq, h5, Bool.false_eq_true, if_false, if_true]
          obtain ⟨t, ht⟩ :=
            retryOperation_log_mono op hmono r (sleepSt 5000 s')
          exact ⟨t, by rw [ht]; rfl⟩
        · simp only [hq, h5, Bool.false_eq_true, if_false,
            Bool.not_eq_true] at *
          exact ⟨[], by simp⟩

/-- One standard-tier attempt appends exactly its request. -/
theorem opFlash_log (env : Nat → Except GError Response)
    (prompt aspect : String) (s : St) :
    ((opFlash env prompt aspect s).2).log =
      s.log ++ [textOnlyReq false prompt aspect] := by
  cases h : env s.calls <;> simp [opFlash, callGenerate, h]

/-- The standard-tier attempt appends its request first. -/
theorem attemptGenFlash_log_head (env : Nat → Except GError Response)
    (prompt aspect : String) (s : St) :
    ∃ t, ((attemptGenFlash env prompt aspect s).2).log =
      s.log ++ [textOnlyReq false prompt aspect] ++ t := by
  obtain ⟨t, ht⟩ := retryOperation_log_extends (opFlash env prompt aspect)
    (fun s0 => ⟨_, opFlash_log env prompt aspect s0⟩) 2 s
  exact ⟨t, by rw [attemptGenFlash] at *; rw [ht, opFlash_log]⟩

/-- One high-tier attempt appends its own request first. -/
theorem opPro_log_head (env : Nat → Except GError Response)
    (prompt aspect : String) (s : St) :
    ∃ t, ((opPro env prompt aspect s).2).log =
      s.log ++ [textOnlyReq true prompt aspect] ++ t := by
  cases h : env s.calls with
  | error e =>
    obtain ⟨t2, ht2⟩ := retryOperation_log_mono (opFlash env prompt aspect)
      (fun s0 => ⟨_, opFlash_log env prompt aspect s0⟩) 2
      { s with calls := s.calls + 1,
               log := s.log ++ [textOnlyReq true prompt aspect] }
    refine ⟨t2, ?_⟩
    simp only [opPro, callGenerate, h]
    rw [show attemptGenFlash env prompt aspect
        { s with calls := s.calls + 1,
                 log := s.log ++ [textOnlyReq true prompt aspect] } =
      retryOperation (opFlash env prompt aspect) 2
        { s with calls := s.calls + 1,
                 log := s.log ++ [textOnlyReq true prompt aspect] } from rfl]
    rw [ht2]
  | ok resp =>
    cases hex : extractImage resp with
    | ok v => exact ⟨[], by simp [opPro, callGenerate, h, hex]⟩
    | error e2 =>
      obtain ⟨t2, ht2⟩ := retryOperation_log_mono (opFlash env prompt aspect)
        (fun s0 => ⟨_, opFlash_log env prompt aspect s0⟩) 2
        { s with calls := s.calls + 1,
                 log := s.log ++ [textOnlyReq true prompt aspect] }
      refine ⟨t2, ?_⟩
      simp only [opPro, callGenerate, h, hex]
      rw [show attemptGenFlash env prompt aspect
          { s with calls := s.calls + 1,
                   log := s.log ++ [textOnlyReq true prompt aspect] } =
        retryOperation (opFlash env prompt aspect) 2
          { s with calls := s.calls + 1,
                   log := s.log ++ [textOnlyReq true prompt aspect] } from rfl]
      rw [ht2]

/-- A high-tier attempt only appends requests. -/
theorem opPro_mono (env : Nat → Except GError Response)
    (prompt aspect : String) (s : St) :
    ∃ t, ((opPro env prompt aspect s).2).log = s.log ++ t := by
  obtain ⟨t, ht⟩ := opPro_log_head env prompt aspect s
  exact ⟨[textOnlyReq true prompt aspect] ++ t, by rw [ht, List.append_assoc]⟩

/-- When the first high-tier call fails, the high-tier attempt immediately
issues a standard-tier request right after its own. -/
theorem opPro_fallback_log (env : Nat → Except GError Response)
    (prompt aspect : String) (s : St) (e : GError)
    (h : env s.calls = .error e) :
    ∃ t, ((opPro env prompt aspect s).2).log =
      s.log ++ [textOnlyReq true prompt aspect,
        textOnlyReq false prompt aspect] ++ t := by
  obtain ⟨t2, ht2⟩ := attemptGenFlash_log_head env prompt aspect
    { s with calls := s.calls + 1,
             log := s.log ++ [textOnlyReq true prompt aspect] }
  refine ⟨t2, ?_⟩
  simp only [opPro, callGenerate, h]
  rw [ht2]
  simp [List.append_assoc]

/-! ## C1: high-tier fallback behaviour of generateImage -/

/-- Oracle on which every remote call fails with a 429 error. -/
def env429 : Nat → Except GError Response := fun _ => .error err429

/-- Counterexample to C1: with `highQuality` and every call failing 429, the
request trace of `generateImage` is high, std, std, std, high, std, std, std,
high, std, std, std — the fallback happens on the *first* high-tier failure
(before any high-tier retry), it happens three times rather than exactly once,
and high-tier requests are issued *after* standard-tier failures, so the
fallback is not one-directional. -/
theorem generateImage_fallback_counterexample :
    ((generateImage env429 true "p" "1:1" true St.init).2.log.map
        (fun r => r.model)) =
      [proImageModel, flashImageModel, flashImageModel, flashImageModel,
       proImageModel, flashImageModel, flashImageModel, flashImageModel,
       proImageModel, flashImageModel, flashImageModel, flashImageModel] ∧
    (generateImage env429 true "p" "1:1" true St.init).1 = .error err429 :=
  ⟨rfl, rfl⟩

/-- Trace state after one failed high-tier call followed by a fully failed
(429) standard-tier fallback. -/
def quadState (prompt aspect : String) : St where
  calls := 4
  log := [textOnlyReq true prompt aspect, textOnlyReq false prompt aspect,
    textOnlyReq false prompt aspect, textOnlyReq false prompt aspect]
  sleeps := [18000, 18000]

/-- C1 (amended): when `highQuality` is set and the first high-tier call
fails, `generateImage` falls back to the standard tier immediately — the
second request is standard-tier, with no prior high-tier retry; and when the
standard-tier fallback then exhausts its own budget with quota errors, the
whole high-then-standard sequence is retried, so the fifth request is
high-tier again: standard-tier failures do lead to new high-tier attempts and
the fallback can occur more than once. -/
theorem generateImage_fallback_amended (env : Nat → Except GError Response)
    (prompt aspect : String) (e : GError) (h0 : env 0 = .error e) :
    (((generateImage env true prompt aspect true St.init).2.log).take 2 =
      [textOnlyReq true prompt aspect, textOnlyReq false prompt aspect]) ∧
    (isQuotaError e = true → env 1 = .error e → env 2 = .error e →
      env 3 = .error e →
      ((generateImage env true prompt aspect true St.init).2.log).take 5 =
        [textOnlyReq true prompt aspect, textOnlyReq false prompt aspect,
         textOnlyReq false prompt aspect, textOnlyReq false prompt aspect,
         textOnlyReq true prompt aspect]) := by
  have hgen : generateImage env true prompt aspect true St.init =
      retryOperation (opPro env prompt aspect) 2 St.init := rfl
  constructor
  · obtain ⟨t, ht⟩ := retryOperation_log_extends (opPro env prompt aspect)
      (opPro_mono env prompt aspect) 2 St.init
    obtain ⟨t2, ht2⟩ := opPro_fallback_log env prompt aspect St.init e h0
    rw [hgen, ht, ht2]
    simp [St.init, List.take_succ_cons]
  · intro hq h1 h2 h3
    have eOpPro : opPro env prompt aspect St.init =
        (.error e, quadState prompt aspect) := by
      simp [opPro, opFlash, attemptGenFlash, callGenerate,
        retryOperation_step, h0, h1, h2, h3, hq, sleepSt, St.init, quadState]
    rw [hgen, retryOperation_step, eOpPro]
    simp only [hq, if_true]
    obtain ⟨t, ht⟩ := retryOperation_log_extends (opPro env prompt aspect)
      (opPro_mono env prompt aspect) 1 _
    obtain ⟨t2, ht2⟩ := opPro_log_head env prompt aspect
      (sleepSt 18000 (quadState prompt aspect))
    rw [ht, ht2]
    simp [sleepSt, quadState]

/-- Witness for the amended C1 at the all-429 oracle. -/
theorem generateImage_fallback_amended_witness :
    (((generateImage env429 true "p" "1:1" true St.init).2.log).take 2 =
      [textOnlyReq true "p" "1:1", textOnlyReq false "p" "1:1"]) ∧
    (((generateImage env429 true "p" "1:1" true St.init).2.log).take 5 =
      [textOnlyReq true "p" "1:1", textOnlyReq false "p" "1:1",
       textOnlyReq false "p" "1:1", textOnlyReq false "p" "1:1",
       textOnlyReq true "p" "1:1"]) :=
  ⟨(generateImage_fallback_amended env429 "p" "1:1" err429 rfl).1,
   (generateImage_fallback_amended env429 "p" "1:1" err429 rfl).2
     (by decide) rfl rfl rfl⟩

/-! ## C7: sendMessage always returns to Idle and classifies failures -/

/-- C7: every `sendMessage` run, on every path, ends with the generating flag
cleared back to Idle (`none`); it appends exactly the optimistic user message
and one assistant-role message to the active mode's history; and on the
failure paths (a thrown generation error, or a null image result which is
turned into the thrown "No image data" error) the appended assistant message
carries the classified human-readable error text and no metadata. -/
theorem sendMessage_finalizes (env : Nat → Except GError Response)
    (hasKey : Bool) (cfg : GenerationConfig) (activeMode : AppMode)
    (text : String) (imageInputs : Option (List String)) (st : AppState)
    (now : Nat) :
    (handleSendMessage env hasKey cfg activeMode text imageInputs st
        now).1.generatingMode = none ∧
    (handleSendMessage env hasKey cfg activeMode text imageInputs st
        now).1.histories activeMode =
      st.histories activeMode ++
        [userMsgOf text imageInputs now,
         sendAssistantMsg env hasKey cfg activeMode text imageInputs st.blob
           now] ∧
    (sendAssistantMsg env hasKey cfg activeMode text imageInputs st.blob
        now).role = .assistant ∧
    (∀ e, (sendGenResult env hasKey cfg activeMode text imageInputs
        st.blob).1 = .error e →
      sendAssistantMsg env hasKey cfg activeMode text imageInputs st.blob now =
        { role := .assistant,
          content := "⚠️ " ++ classifyError (errMessageOf e),
          timestamp := now }) ∧
    ((sendGenResult env hasKey cfg activeMode text imageInputs st.blob).1 =
        .ok none →
      sendAssistantMsg env hasKey cfg activeMode text imageInputs st.blob now =
        { role := .assistant,
          content := "⚠️ " ++ classifyError (errMessageOf noImageError),
          timestamp := now }) := by
  refine ⟨?_, ?_, ?_, ?_, ?_⟩
  · simp [handleSendMessage]
  · simp [handleSendMessage, updateHist]
  · cases hres : (sendGenResult env hasKey cfg activeMode text imageInputs
        st.blob).1 with
    | ok v =>
      cases v with
      | none => simp [sendAssistantMsg, assistantMsgOf, hres]
      | some url => simp [sendAssistantMsg, assistantMsgOf, hres]
    | error e => simp [sendAssistantMsg, assistantMsgOf, hres]
  · intro e he
    simp [sendAssistantMsg, assistantMsgOf, he]
  · intro he
    simp [sendAssistantMsg, assistantMsgOf, he]

/-- Error with a safety-block message, used by the C7 witness. -/
def errSafety : GError := { msg := "SAFETY block" }

/-- Oracle on which every remote call fails with a safety error. -/
def envSafety : Nat → Except GError Response := fun _ => .error errSafety

/-- Empty app state used by witnesses. -/
def emptyAppState : AppState :=
  { histories := fun _ => [], generatingMode := none, blob := .missing }

/-- Witness for C7: a failing generation run ends Idle and appends the
classified assistant error message. -/
theorem sendMessage_finalizes_witness :
    (handleSendMessage envSafety true ⟨"1:1", false⟩ .GENERAL "hi" none
        emptyAppState 7).1.generatingMode = none ∧
    sendAssistantMsg envSafety true ⟨"1:1", false⟩ .GENERAL "hi" none
        emptyAppState.blob 7 =
      { role := .assistant,
        content := "⚠️ " ++ classifyError (errMessageOf errSafety),
        timestamp := 7 } :=
  ⟨(sendMessage_finalizes envSafety true ⟨"1:1", false⟩ .GENERAL "hi" none
      emptyAppState 7).1,
   (sendMessage_finalizes envSafety true ⟨"1:1", false⟩ .GENERAL "hi" none
      emptyAppState 7).2.2.2.1 errSafety rfl⟩

/-! ## C8: empty refined prompts are replaced by mode-specific fallbacks -/

/-- The request issued by one `refinePrompt` attempt. -/
def refineReqOf (blob : Blob) (userInput : String) (mode : AppMode)
    (hasImages : Bool) : GenRequest :=
  { model := "gemini-2.5-flash",
    contentsText := some (refineContext userInput mode hasImages),
    systemText := some (SYSTEM_INSTRUCTION_BASE ++ memoryRecall blob mode) }

/-- C8: whenever the refined prompt is the empty string, the prompt actually
passed to generation is the mode-specific literal fallback (never empty), and
for Background-Removal mode it is exactly "Isolate the subject on white
background."; moreover, for Background-Removal mode with empty text, no
reference images and a failing refinement call, the generation request issued
right after the refinement request carries exactly that literal prompt as its
sole part. -/
theorem sendMessage_fallback_prompt (env : Nat → Except GError Response)
    (hasKey : Bool) (blob : Blob) (text : String) (mode : AppMode)
    (imageInputs : Option (List String)) (cfg : GenerationConfig) :
    ((sendRefined env hasKey blob text mode imageInputs).1 = "" →
      sendFinalPrompt env hasKey blob text mode imageInputs =
        fallbackPrompt mode ∧
      sendFinalPrompt env hasKey blob text mode imageInputs ≠ "" ∧
      (mode = .BG_REMOVER →
        sendFinalPrompt env hasKey blob text mode imageInputs =
          "Isolate the subject on white background.")) ∧
    (∀ e, env 0 = .error e → hasKey = true → mode = .BG_REMOVER →
      text = "" → imageInputs = none →
      ((sendGenResult env hasKey cfg mode text imageInputs blob).2.log).take
          2 =
        [refineReqOf blob "" .BG_REMOVER false,
         textOnlyReq cfg.highQuality
           "Isolate the subject on white background." cfg.aspect]) := by
  constructor
  · intro hempty
    refine ⟨?_, ?_, ?_⟩
    · simp [sendFinalPrompt, hempty]
    · simp [sendFinalPrompt, hempty]
      cases mode <;> simp [fallbackPrompt]
    · intro hm
      subst hm
      simp [sendFinalPrompt, hempty, fallbackPrompt]
  · intro e h0 hk hm htext himgs
    subst hk hm htext himgs
    have hrefined : sendRefined env true blob "" .BG_REMOVER none =
        ("", { calls := 1, log := [refineReqOf blob "" .BG_REMOVER false],
               sleeps := [] }) := by
      simp [sendRefined, sendHasImages, refinePrompt, retryOperation_step,
        refineOp, callGenerate, St.init, refineReqOf, h0]
    have hfp : sendFinalPrompt env true blob "" .BG_REMOVER none =
        "Isolate the subject on white background." := by
      simp [sendFinalPrompt, hrefined, fallbackPrompt]
    have hgen : sendGenResult env true cfg .BG_REMOVER "" none blob =
        generateImage env true "Isolate the subject on white background."
          cfg.aspect cfg.highQuality
          { calls := 1, log := [refineReqOf blob "" .BG_REMOVER false],
            sleeps := [] } := by
      simp [sendGenResult, sendHasImages, hrefined, hfp]
    rw [hgen]
    cases hq : cfg.highQuality with
    | true =>
      obtain ⟨t, ht⟩ := retryOperation_log_extends
        (opPro env "Isolate the subject on white background." cfg.aspect)
        (opPro_mono env "Isolate the subject on white background." cfg.aspect)
        2 { calls := 1, log := [refineReqOf blob "" .BG_REMOVER false],
            sleeps := [] }
      obtain ⟨t2, ht2⟩ := opPro_log_head env
        "Isolate the subject on white background." cfg.aspect
        { calls := 1, log := [refineReqOf blob "" .BG_REMOVER false],
          sleeps := [] }
      have : generateImage env true
          "Isolate the subject on white background." cfg.aspect true
          { calls := 1, log := [refineReqOf blob "" .BG_REMOVER false],
            sleeps := [] } =
          retryOperation
            (opPro env "Isolate the subject on white background." cfg.aspect)
            2 { calls := 1, log := [refineReqOf blob "" .BG_REMOVER false],
                sleeps := [] } := rfl
      rw [this, ht, ht2]
      simp [List.take_succ_cons]
    | false =>
      obtain ⟨t, ht⟩ := retryOperation_log_extends
        (opFlash env "Isolate the subject on white background." cfg.aspect)
        (fun s0 => ⟨_, opFlash_log env
          "Isolate the subject on white background." cfg.aspect s0⟩)
        2 { calls := 1, log := [refineReqOf blob "" .BG_REMOVER false],
            sleeps := [] }
      have : generateImage env true
          "Isolate the subject on white background." cfg.aspect false
          { calls := 1, log := [refineReqOf blob "" .BG_REMOVER false],
            sleeps := [] } =
          retryOperation
            (opFlash env "Isolate the subject on white background."
              cfg.aspect)
            2 { calls := 1, log := [refineReqOf blob "" .BG_REMOVER false],
                sleeps := [] } := rfl
      rw [this, ht, opFlash_log]
      simp [List.take_succ_cons]

/-- Witness for C8: concrete run in Background-Removal mode with empty text,
no reference images and a failing refinement call. -/
theorem sendMessage_fallback_prompt_witness :
    sendFinalPrompt envBoom true .missing "" .BG_REMOVER none =
      "Isolate the subject on white background." ∧
    ((sendGenResult envBoom true ⟨"1:1", false⟩ .BG_REMOVER "" none
        .missing).2.log).take 2 =
      [refineReqOf .missing "" .BG_REMOVER false,
       textOnlyReq false "Isolate the subject on white background." "1:1"] :=
  ⟨((sendMessage_fallback_prompt envBoom true .missing "" .BG_REMOVER none
      ⟨"1:1", false⟩).1 (by
        simp [sendRefined, sendHasImages, refinePrompt, retryOperation_step,
          refineOp, callGenerate, St.init, envBoom])).2.2 rfl,
   (sendMessage_fallback_prompt envBoom true .missing "" .BG_REMOVER none
      ⟨"1:1", false⟩).2 { msg := "boom" } rfl rfl rfl rfl rfl⟩

/-! ## C9: part construction of generateWithImages -/

/-- Response carrying one inline image, used by concrete oracles. -/
def respImg : Response :=
  { candidates := some [⟨[{ inlineData := some ⟨"IMG", "image/png"⟩ }]⟩] }

/-- Oracle on which every remote call succeeds with one inline image. -/
def envOkImg : Nat → Except GError Response := fun _ => .ok respImg

/-- Counterexample to C9: for the reference image
`data:image/gif;base64,AAAA` the declared mime type (`image/gif`) is matched
by the mime regex but the strip regex only covers png/jpeg/jpg/webp, so the
part sent by `generateWithImages` keeps the full data URL — the base64
encoding prefix is *not* stripped. -/
theorem generateWithImages_strip_counterexample :
    ((generateWithImages envOkImg true ["data:image/gif;base64,AAAA"] "p"
        "1:1" St.init).2.log.map (fun r => r.parts)) =
      [[{ inlineData := some { data := "data:image/gif;base64,AAAA", mimeType := "image/gif" } }, { text := some "p" }]] ∧
    cleanBase64 "data:image/gif;base64,AAAA" ≠ "AAAA" :=
  ⟨rfl, by decide⟩

/-- Requests appended by one `generateWithImages` attempt have the fixed
standard-tier shape. -/
theorem retryOperation_log_all (op : St → Except GError α × St)
    (P : GenRequest → Prop)
    (hop : ∀ s r, r ∈ ((op s).2).log → r ∈ s.log ∨ P r) :
    ∀ retries s r, r ∈ ((retryOperation op retries s).2).log →
      r ∈ s.log ∨ P r := by
  intro retries
  induction retries with
  | zero =>
    intro s r hr
    rcases hop2 : op s with ⟨res, s'⟩
    rw [retryOperation_step, hop2] at hr
    cases res with
    | ok a => exact hop s r (by rw [hop2]; exact hr)
    | error e => exact hop s r (by rw [hop2]; exact hr)
  | succ n ih =>
    intro s r hr
    rcases hop2 : op s with ⟨res, s'⟩
    rw [retryOperation_step, hop2] at hr
    cases res with
    | ok a => exact hop s r (by rw [hop2]; exact hr)
    | error e =>
      by_cases hq : isQuotaError e = true
      · simp only [hq, if_true] at hr
        rcases ih (sleepSt 18000 s') r hr with h | h
        · exact hop s r (by rw [hop2]; exact h)
        · exact Or.inr h
      · simp only [hq, Bool.not_eq_true] at *
        by_cases h5 : is503Error e = true
        · simp only [hq, h5, Bool.false_eq_true, if_false, if_true] at hr
          rcases ih (sleepSt 5000 s') r hr with h | h
          · exact hop s r (by rw [hop2]; exact h)
          · exact Or.inr h
        · simp only [hq, h5, Bool.false_eq_true, if_false,
            Bool.not_eq_true] at *
          exact hop s r (by rw [hop2]; exact hr)

/-- C9 (amended): `generateWithImages` always uses the standard multimodal
tier, and every request it issues carries one part per reference image, in
order, followed by the text prompt as the final part; each image part keeps
the declared mime type (from the data-URL head, defaulting to `image/png`),
but the base64 prefix is stripped only when the declared type is png, jpeg,
jpg or webp — for other declared types (e.g. `image/gif`) the full data URL
is sent as the part payload. -/
theorem generateWithImages_amended (env : Nat → Except GError Response)
    (hasKey : Bool) (imgs : List String) (prompt aspect : String) (s : St) :
    (∀ req ∈ ((generateWithImages env hasKey imgs prompt aspect s).2).log,
      req ∈ s.log ∨ (req.model = flashImageModel ∧
        req.parts = imgs.map imagePart ++ [{ text := some prompt }])) ∧
    (∀ payload : String,
      imagePart ("data:image/png;base64," ++ payload) =
        { inlineData := some { data := payload, mimeType := "image/png" } } ∧
      imagePart ("data:image/jpeg;base64," ++ payload) =
        { inlineData := some { data := payload, mimeType := "image/jpeg" } } ∧
      imagePart ("data:image/jpg;base64," ++ payload) =
        { inlineData := some { data := payload, mimeType := "image/jpg" } } ∧
      imagePart ("data:image/webp;base64," ++ payload) =
        { inlineData := some { data := payload, mimeType := "image/webp" } } ∧
      imagePart ("data:image/gif;base64," ++ payload) =
        { inlineData := some { data := "data:image/gif;base64," ++ payload, mimeType := "image/gif" } }) := by
  constructor
  · intro req hreq
    refine retryOperation_log_all (opWithImages env hasKey imgs prompt aspect)
      (fun r => r.model = flashImageModel ∧
        r.parts = imgs.map imagePart ++ [{ text := some prompt }])
      ?_ 2 s req hreq
    intro s0 r hr
    cases hasKey with
    | false => exact Or.inl hr
    | true =>
      cases h : env s0.calls with
      | ok resp =>
        simp only [opWithImages, callGenerate, h] at hr
        rcases List.mem_append.mp hr with hl | hsing
        · exact Or.inl hl
        · rcases List.mem_singleton.mp hsing with rfl
          exact Or.inr ⟨rfl, rfl⟩
      | error e =>
        simp only [opWithImages, callGenerate, h] at hr
        rcases List.mem_append.mp hr with hl | hsing
        · exact Or.inl hl
        · rcases List.mem_singleton.mp hsing with rfl
          exact Or.inr ⟨rfl, rfl⟩
  · intro payload
    exact ⟨rfl, rfl, rfl, rfl, rfl⟩

/-- Concrete standard-tier request used by the C9 witness. -/
def reqGifW : GenRequest :=
  { model := flashImageModel,
    parts := multiParts ["data:image/gif;base64,AAAA"] "p",
    aspect := some "1:1" }

/-- Witness for the amended C9 at a concrete call. -/
theorem generateWithImages_amended_witness :
    (reqGifW ∈ St.init.log ∨ (reqGifW.model = flashImageModel ∧
      reqGifW.parts = ["data:image/gif;base64,AAAA"].map imagePart ++
        [{ text := some "p" }])) ∧
    imagePart ("data:image/png;base64," ++ "AA") =
      { inlineData := some { data := "AA", mimeType := "image/png" } } :=
  ⟨(generateWithImages_amended envOkImg true ["data:image/gif;base64,AAAA"]
      "p" "1:1" St.init).1 reqGifW (by decide),
   ((generateWithImages_amended envOkImg true ["data:image/gif;base64,AAAA"]
      "p" "1:1" St.init).2 "AA").1⟩

/-! ## C10: likeMessage is a no-op without a liked assistant message -/

/-- C10: for every message index, when the indexed message in the active
mode's history is absent, is not assistant-role or carries no truthy
`finalPrompt` metadata (as failure-path assistant messages do, being appended
without metadata), `likeMessage` is a no-op: no memory-store write happens and
the whole app state — every message of every mode, liked metadata included —
is unchanged. -/
theorem likeMessage_noop (st : AppState) (currentMode : AppMode)
    (index now : Nat) :
    ((st.histories currentMode)[index]? = none →
      handleLikeMessage st currentMode index now = st) ∧
    (∀ m, (st.histories currentMode)[index]? = some m →
      (m.role ≠ .assistant ∨ m.metadata = none ∨
        (∃ meta, m.metadata = some meta ∧
          (meta.finalPrompt = none ∨ meta.finalPrompt = some ""))) →
      handleLikeMessage st currentMode index now = st) := by
  constructor
  · intro h
    simp only [handleLikeMessage, h]
  · intro m hm hcond
    simp only [handleLikeMessage, hm]
    split
    · rfl
    · next meta2 hmeta2 =>
      split
      · rfl
      · next fp hfp2 =>
        rcases hcond with hrole | hmeta | ⟨meta, hmeta, hfp⟩
        · have hr : (m.role == Role.assistant) = false := by
            cases hr0 : m.role <;> simp_all
          simp [hr]
        · rw [hmeta] at hmeta2
          cases hmeta2
        · rw [hmeta] at hmeta2
          injection hmeta2 with hmm
          subst hmm
          rcases hfp with hnone | hempty
          · rw [hfp2] at hnone
            cases hnone
          · rw [hfp2] at hempty
            injection hempty with hfpe
            subst hfpe
            simp

/-- App state with a single user message, used by the C10 witness. -/
def likeStateW : AppState :=
  { histories := fun _ => [{ role := .user, content := "hello", timestamp := 1 }],
    generatingMode := none, blob := .missing }

/-- Witness for C10: liking a user-role message changes nothing. -/
theorem likeMessage_noop_witness :
    handleLikeMessage likeStateW .GENERAL 0 5 = likeStateW :=
  (likeMessage_noop likeStateW .GENERAL 0 5).2
    { role := .user, content := "hello", timestamp := 1 } rfl
    (Or.inl (by decide))

end PixFrog
